import Mathlib

/-!
Verification of the Redshift external-schema resource
(`src/redshift/resource_redshift_external_schema_data_catalog.go`).

Shallow embedding: the Go resource functions mutate a
`*schema.ResourceData` in place and talk to a database through
`*sql.DB` / `*sql.Tx`.  Here each operation is a pure function from the
resource data and an environment (the database's responses to the
queries the operation issues) to an outcome recording the Go return
value, the resource data after all in-place mutations, the list of DDL
statements handed to `Exec`, and — for `Update` — the final state of the
transaction opened by `Begin`.

Terraform SDK semantics used by the source and modelled here:
`d.Get` returns the planned (new) value, `d.GetChange` returns the
(old, new) pair, `d.HasChange` compares them, `d.Set` overwrites the
stored value, `d.SetId` assigns the identifier, and `d.GetOk` reports
`ok = false` exactly when the value is the type's zero value
(`0` for the int-typed `owner`, `false` for the bool `cascade_on_delete`).
-/

namespace Redshift

/-- A database error as seen through Go's `error` interface.  `sqlNoRows`
is `sql.ErrNoRows`; `sqlOther` is any other driver/query failure;
`wrapped` is the result of `errwrap.Wrapf(msg, cause)`. -/
inductive GoError where
  | sqlNoRows : GoError
  | sqlOther (msg : String) : GoError
  | wrapped (msg : String) (cause : GoError) : GoError
deriving Repr, DecidableEq

/-- The outer wrap message of an error, if it is a wrap. -/
def GoError.topMsg : GoError → Option String
  | .wrapped msg _ => some msg
  | _ => none

/-- The attribute values carried by a `ResourceData` snapshot. -/
structure Config where
  schemaName : String
  databaseName : String
  iamRole : String
  owner : Int
deriving Repr, DecidableEq

/-- The `*schema.ResourceData` handle: the identifier, the prior (state)
values returned as the first component of `GetChange`, the planned
values returned by `Get`, and the `cascade_on_delete` flag. -/
structure ResourceData where
  id : String
  old : Config
  new : Config
  cascadeOnDelete : Bool
deriving Repr, DecidableEq

/-- `d.GetOk("owner")`: ok iff the int is not Go's zero value. -/
def ResourceData.ownerOk (d : ResourceData) : Bool := d.new.owner != 0

/-- The row produced by the read join over `pg_namespace` and
`svv_external_schemas`. -/
structure ReadRow where
  schemaName : String
  owner : Int
  databaseName : String
  iamRole : String
deriving Repr, DecidableEq

/-- A query's outcome as delivered by `QueryRow(...).Scan(...)` /
`Exec(...)`: either the scanned value or a `GoError`
(`sqlNoRows` when zero rows matched). -/
abbrev QueryRes (α : Type) := Except GoError α

instance {ε α : Type} [DecidableEq ε] [DecidableEq α] :
    DecidableEq (Except ε α) := fun a b =>
  match a, b with
  | .error e, .error f => decidable_of_iff (e = f) (by simp)
  | .error _, .ok _ => isFalse (by simp)
  | .ok _, .error _ => isFalse (by simp)
  | .ok x, .ok y => decidable_of_iff (x = y) (by simp)

/-- `resourceDataCatalogSchemaExists`: scans
`SELECT nspname FROM pg_namespace WHERE oid = $1`.  Zero rows is a valid
`false`; any other error is wrapped; a row means `true`. -/
def resourceDataCatalogSchemaExists (d : ResourceData)
    (existenceRes : QueryRes String) : Except GoError Bool :=
  match existenceRes with
  | .error .sqlNoRows => .ok false
  | .error e =>
      .error (.wrapped ("Error reading external schema with oid " ++ d.id) e)
  | .ok _ => .ok true

/-- `readDataCatalogSchema`: scans the join row for `d.Id()` and copies
every column into the resource data with `d.Set`.  Any scan error —
including `sql.ErrNoRows` — takes the single wrapping branch. -/
def readDataCatalogSchema (d : ResourceData) (readRes : QueryRes ReadRow) :
    Except GoError ResourceData :=
  match readRes with
  | .error e =>
      .error (.wrapped
        ("Error reading external schema information for oid " ++ d.id) e)
  | .ok row =>
      .ok { d with new :=
        { schemaName := row.schemaName
          owner := row.owner
          databaseName := row.databaseName
          iamRole := row.iamRole } }

/-- `resourceDataCatalogSchemaRead`: extracts the client and delegates to
`readDataCatalogSchema`, returning its error unchanged. -/
def resourceDataCatalogSchemaRead (d : ResourceData)
    (readRes : QueryRes ReadRow) : Except GoError ResourceData :=
  readDataCatalogSchema d readRes

/-- `resourceDataCatalogSchemaImport`: runs Read; on success returns the
singleton list of the resource data. -/
def resourceDataCatalogSchemaImport (d : ResourceData)
    (readRes : QueryRes ReadRow) : Except GoError (List ResourceData) :=
  match resourceDataCatalogSchemaRead d readRes with
  | .error e => .error e
  | .ok d1 => .ok [d1]

/-- The `DROP SCHEMA` text built by `resourceDataCatalogSchemaDelete`:
the cascade branch appends the literal `" CASCADE "` (trailing blank
included, exactly as the source concatenates it). -/
def dropStatement (d : ResourceData) : String :=
  let q := "DROP SCHEMA " ++ d.new.schemaName
  if d.cascadeOnDelete then q ++ " CASCADE " else q

/-- `resourceDataCatalogSchemaDelete`: executes the drop statement,
wrapping a failure; returns the statements handed to `Exec`. -/
def resourceDataCatalogSchemaDelete (d : ResourceData)
    (execRes : QueryRes Unit) : Except GoError Unit × List String :=
  match execRes with
  | .error e =>
      (.error (.wrapped
        ("Error dropping external schema " ++ d.new.schemaName) e),
       [dropStatement d])
  | .ok _ => (.ok (), [dropStatement d])

/-- Outcome of `updateDataCatalogSchemaOwner`.  `crashed` models a Go
runtime panic (the unchecked `username[0]` index). -/
inductive OwnerOutcome where
  | ok : OwnerOutcome
  | fail (e : GoError) : OwnerOutcome
  | crashed (msg : String) : OwnerOutcome
deriving Repr, DecidableEq

/-- `updateDataCatalogSchemaOwner`: resolves `d.Get("owner")` through
`GetUsersnamesForUsesysid` (its result list is the `names` argument) and
executes `ALTER SCHEMA <Get schema_name> OWNER TO names[0]`.  The index
`username[0]` is unchecked: an empty list panics before any statement is
issued. -/
def updateDataCatalogSchemaOwner (d : ResourceData) (names : List String)
    (execRes : QueryRes Unit) : OwnerOutcome × List String :=
  match names with
  | [] => (.crashed "runtime error: index out of range", [])
  | name :: _ =>
      let stmt := "ALTER SCHEMA " ++ d.new.schemaName ++ " OWNER TO " ++ name
      match execRes with
      | .error e =>
          (.fail (.wrapped ("Error updating external schema " ++
            d.new.schemaName ++ " owner to " ++ name) e), [stmt])
      | .ok _ => (.ok, [stmt])

/-- A Go function-level return: normal (`nil`), an error, or a runtime
panic unwinding out of the function. -/
inductive OpResult where
  | ok : OpResult
  | err (e : GoError) : OpResult
  | crashed (msg : String) : OpResult
deriving Repr, DecidableEq

/-- Database responses consumed by `resourceDataCatalogSchemaCreate`, in
the order the source issues them. -/
structure CreateEnv where
  createRes : QueryRes Unit
  names : List String
  alterOwnerRes : QueryRes Unit
  oidRes : QueryRes String
  readRes : QueryRes ReadRow
deriving Repr, DecidableEq

/-- What a lifecycle operation leaves behind: the Go return value, the
resource data after all in-place mutations, and the statements handed to
`Exec` in order. -/
structure CreateOutcome where
  result : OpResult
  d : ResourceData
  stmts : List String
deriving Repr, DecidableEq

/-- The `CREATE EXTERNAL SCHEMA` text built by the source. -/
def createStatement (d : ResourceData) : String :=
  "CREATE EXTERNAL SCHEMA " ++ d.new.schemaName ++
    " FROM DATA CATALOG DATABASE '" ++ d.new.databaseName ++
    "' IAM_ROLE '" ++ d.new.iamRole ++ "'"

/-- `resourceDataCatalogSchemaCreate` after the owner step: resolve the
oid by name, `d.SetId(oid)`, then re-read and return the read error. -/
def createAfterOwner (d : ResourceData) (env : CreateEnv)
    (log : List String) : CreateOutcome :=
  match env.oidRes with
  | .error e =>
      { result := .err (.wrapped
          ("Error reading oid for created external schema " ++
            d.new.schemaName) e)
        d := d, stmts := log }
  | .ok oid =>
      let d1 := { d with id := oid }
      match readDataCatalogSchema d1 env.readRes with
      | .error e => { result := .err e, d := d1, stmts := log }
      | .ok d2 => { result := .ok, d := d2, stmts := log }

/-- `resourceDataCatalogSchemaCreate`: execute the creation DDL, sleep
(no state effect), apply the owner when `GetOk("owner")` holds, resolve
the oid, `SetId`, re-read. -/
def resourceDataCatalogSchemaCreate (d : ResourceData) (env : CreateEnv) :
    CreateOutcome :=
  let stmt := createStatement d
  match env.createRes with
  | .error e =>
      { result := .err (.wrapped
          ("Error creating external schema " ++ d.new.schemaName) e)
        d := d, stmts := [stmt] }
  | .ok _ =>
      if d.ownerOk then
        match updateDataCatalogSchemaOwner d env.names env.alterOwnerRes with
        | (.crashed m, l) => { result := .crashed m, d := d, stmts := stmt :: l }
        | (.fail e, l) => { result := .err e, d := d, stmts := stmt :: l }
        | (.ok, l) => createAfterOwner d env (stmt :: l)
      else
        createAfterOwner d env [stmt]

/-- The state of the `sql.Tx` opened by Update when the call returns:
never opened, still open (neither `Commit` nor `Rollback` ran),
committed, or rolled back. -/
inductive TxState where
  | notOpened : TxState
  | stillOpen : TxState
  | committed : TxState
  | rolledBack : TxState
deriving Repr, DecidableEq

/-- Database responses consumed by `resourceDataCatalogSchemaUpdate`.
`beginFails` makes `redshiftClient.Begin()` fail (the source panics on
that path). -/
structure UpdateEnv where
  beginFails : Bool
  renameRes : QueryRes Unit
  names : List String
  reownRes : QueryRes Unit
  readRes : QueryRes ReadRow
deriving Repr, DecidableEq

structure UpdateOutcome where
  result : OpResult
  d : ResourceData
  stmts : List String
  tx : TxState
deriving Repr, DecidableEq

/-- The rename text built by Update from `d.GetChange("schema_name")`. -/
def renameStatement (d : ResourceData) : String :=
  "ALTER SCHEMA " ++ d.old.schemaName ++ " RENAME TO " ++ d.new.schemaName

/-- Tail of `resourceDataCatalogSchemaUpdate`: read back on the plain
connection; on failure `tx.Rollback()` and return the wrapped error,
otherwise `tx.Commit()` and return `nil`. -/
def updateReadBack (d : ResourceData) (env : UpdateEnv)
    (log : List String) : UpdateOutcome :=
  match readDataCatalogSchema d env.readRes with
  | .error e =>
      { result := .err (.wrapped "Error performing rollback: " e)
        d := d, stmts := log, tx := .rolledBack }
  | .ok d1 => { result := .ok, d := d1, stmts := log, tx := .committed }

/-- The owner-change step of Update: when `d.HasChange("owner")`, run
`updateDataCatalogSchemaOwner` against the transaction, returning its
error early (which leaves the transaction open); then fall through to
the read-back. -/
def updateOwnerStep (d : ResourceData) (env : UpdateEnv)
    (log : List String) : UpdateOutcome :=
  if d.old.owner ≠ d.new.owner then
    match updateDataCatalogSchemaOwner d env.names env.reownRes with
    | (.crashed m, l) =>
        { result := .crashed m, d := d, stmts := log ++ l,
          tx := .stillOpen }
    | (.fail e, l) =>
        { result := .err e, d := d, stmts := log ++ l, tx := .stillOpen }
    | (.ok, l) => updateReadBack d env (log ++ l)
  else
    updateReadBack d env log

/-- `resourceDataCatalogSchemaUpdate`: `Begin` (panic on failure), rename
inside the transaction when `schema_name` changed (early return on
error), reown inside the transaction when `owner` changed (early return
on error), then read back and commit or roll back.  The early returns
leave the transaction `stillOpen`. -/
def resourceDataCatalogSchemaUpdate (d : ResourceData) (env : UpdateEnv) :
    UpdateOutcome :=
  if env.beginFails then
    { result := .crashed "panic: Begin failed", d := d, stmts := [],
      tx := .notOpened }
  else
    if d.old.schemaName ≠ d.new.schemaName then
      match env.renameRes with
      | .error e =>
          { result := .err (.wrapped
              ("Error renaming external schema " ++ d.old.schemaName ++
                " to " ++ d.new.schemaName) e)
            d := d, stmts := [renameStatement d], tx := .stillOpen }
      | .ok _ => updateOwnerStep d env [renameStatement d]
    else
      updateOwnerStep d env []

/-- The statements of an Update that are durably applied to the
warehouse: everything Update executes goes through the transaction, so
nothing survives unless the transaction committed. -/
def durableStmts (o : UpdateOutcome) : List String :=
  match o.tx with
  | .committed => o.stmts
  | _ => []

/-! Concrete fixtures used by counterexamples and witnesses. -/

/-- The spec's concrete scenario configuration. -/
def cfg0 : Config :=
  { schemaName := "ext1", databaseName := "gluedb",
    iamRole := "arn:aws:iam::123:role/r", owner := 100 }

/-- A resource data with no pending change. -/
def d0 : ResourceData :=
  { id := "42", old := cfg0, new := cfg0, cascadeOnDelete := false }

/-- A resource data with a pending rename `ext1 → ext2` and owner change
`100 → 200`. -/
def dCh : ResourceData :=
  { id := "42", old := cfg0,
    new := { cfg0 with schemaName := "ext2", owner := 200 },
    cascadeOnDelete := false }

/-- A fully successful Create environment: owner lookup finds `alice`,
the oid resolves to `99`, and the re-read returns the spec's scenario
row. -/
def cenvOK : CreateEnv :=
  { createRes := .ok (), names := ["alice"], alterOwnerRes := .ok (),
    oidRes := .ok "99",
    readRes := .ok ⟨"ext1", 100, "gluedb", "arn:aws:iam::123:role/r"⟩ }

/-- A fully successful Update environment for the rename-and-reown
scenario. -/
def uenvOK : UpdateEnv :=
  { beginFails := false, renameRes := .ok (), names := ["alice"],
    reownRes := .ok (),
    readRes := .ok ⟨"ext2", 200, "gluedb", "arn:aws:iam::123:role/r"⟩ }

/-- An Update environment whose rename statement fails. -/
def uenvRenameFail : UpdateEnv :=
  { beginFails := false, renameRes := .error (.sqlOther "syntax error"),
    names := ["alice"], reownRes := .ok (),
    readRes := .ok ⟨"ext2", 200, "gluedb", "arn:aws:iam::123:role/r"⟩ }

/-- An Update environment whose statements succeed but whose
plain-connection read-back fails. -/
def uenvReadFail : UpdateEnv :=
  { beginFails := false, renameRes := .ok (), names := ["alice"],
    reownRes := .ok (), readRes := .error (.sqlOther "read-back failed") }

/-- A Create environment whose owner-application statement fails. -/
def cenvOwnerFail : CreateEnv :=
  { createRes := .ok (), names := ["alice"],
    alterOwnerRes := .error (.sqlOther "permission denied"),
    oidRes := .ok "99",
    readRes := .ok ⟨"ext1", 100, "gluedb", "arn:aws:iam::123:role/r"⟩ }

/-- A Create environment whose oid-resolution lookup fails. -/
def cenvOidFail : CreateEnv :=
  { createRes := .ok (), names := ["alice"], alterOwnerRes := .ok (),
    oidRes := .error .sqlNoRows,
    readRes := .ok ⟨"ext1", 100, "gluedb", "arn:aws:iam::123:role/r"⟩ }

/-! Helper lemmas shared by several claims. -/

/-- A successful read never touches the identifier. -/
theorem readDataCatalogSchema_id (d : ResourceData) (r : QueryRes ReadRow)
    (d1 : ResourceData) (h : readDataCatalogSchema d r = .ok d1) :
    d1.id = d.id := by
  unfold readDataCatalogSchema at h
  cases r with
  | error e => simp at h
  | ok row => simp at h; rw [← h]

/-- The read-back tail of Update never touches the identifier. -/
theorem updateReadBack_id (d : ResourceData) (env : UpdateEnv)
    (log : List String) : (updateReadBack d env log).d.id = d.id := by
  unfold updateReadBack readDataCatalogSchema
  cases env.readRes <;> simp

/-- The owner step of Update never touches the identifier. -/
theorem updateOwnerStep_id (d : ResourceData) (env : UpdateEnv)
    (log : List String) : (updateOwnerStep d env log).d.id = d.id := by
  unfold updateOwnerStep updateDataCatalogSchemaOwner
  split
  · cases env.names with
    | nil => simp
    | cons name rest => cases env.reownRes <;> simp [updateReadBack_id]
  · exact updateReadBack_id d env log

/-- Update never touches the identifier on any path. -/
theorem update_id (d : ResourceData) (env : UpdateEnv) :
    (resourceDataCatalogSchemaUpdate d env).d.id = d.id := by
  unfold resourceDataCatalogSchemaUpdate
  split
  · rfl
  · split
    · cases env.renameRes <;> simp [updateOwnerStep_id]
    · exact updateOwnerStep_id d env []

/-- If the read-back succeeds, its row is exactly the attribute set held
afterwards. -/
theorem readDataCatalogSchema_ok_row (d : ResourceData) (r : QueryRes ReadRow)
    (d1 : ResourceData) (h : readDataCatalogSchema d r = .ok d1) :
    r = .ok ⟨d1.new.schemaName, d1.new.owner,
      d1.new.databaseName, d1.new.iamRole⟩ := by
  unfold readDataCatalogSchema at h
  cases r with
  | error e => simp at h
  | ok row => simp at h; rw [← h]

/-- If the oid-resolution-and-read tail of Create ends in `ok`, the read
row is exactly the final attribute set. -/
theorem createAfterOwner_ok_read (d : ResourceData) (env : CreateEnv)
    (log : List String) (o : CreateOutcome)
    (h : createAfterOwner d env log = o) (hok : o.result = .ok) :
    env.readRes = .ok ⟨o.d.new.schemaName, o.d.new.owner,
      o.d.new.databaseName, o.d.new.iamRole⟩ := by
  unfold createAfterOwner at h
  cases ho : env.oidRes with
  | error e => rw [ho] at h; subst h; simp at hok
  | ok oid =>
    rw [ho] at h
    cases hr : env.readRes with
    | error e =>
        rw [hr] at h; simp only [readDataCatalogSchema] at h
        subst h; simp at hok
    | ok row =>
        rw [hr] at h; simp only [readDataCatalogSchema] at h
        subst h; rfl

/-- If the read-back tail of Update ends in `ok`, the read row is
exactly the final attribute set. -/
theorem updateReadBack_ok_read (d : ResourceData) (env : UpdateEnv)
    (log : List String) (o : UpdateOutcome)
    (h : updateReadBack d env log = o) (hok : o.result = .ok) :
    env.readRes = .ok ⟨o.d.new.schemaName, o.d.new.owner,
      o.d.new.databaseName, o.d.new.iamRole⟩ := by
  unfold updateReadBack at h
  cases hr : env.readRes with
  | error e =>
      rw [hr] at h; simp only [readDataCatalogSchema] at h
      subst h; simp at hok
  | ok row =>
      rw [hr] at h; simp only [readDataCatalogSchema] at h
      subst h; rfl

/-- If the owner step of Update ends in `ok`, the read row is exactly
the final attribute set. -/
theorem updateOwnerStep_ok_read (d : ResourceData) (env : UpdateEnv)
    (log : List String) (o : UpdateOutcome)
    (h : updateOwnerStep d env log = o) (hok : o.result = .ok) :
    env.readRes = .ok ⟨o.d.new.schemaName, o.d.new.owner,
      o.d.new.databaseName, o.d.new.iamRole⟩ := by
  unfold updateOwnerStep at h
  by_cases hc : d.old.owner ≠ d.new.owner
  · rw [if_pos hc] at h
    cases hn : env.names with
    | nil =>
        rw [hn] at h; simp only [updateDataCatalogSchemaOwner] at h
        subst h; simp at hok
    | cons name rest =>
        rw [hn] at h
        cases hrr : env.reownRes with
        | error e =>
            rw [hrr] at h; simp only [updateDataCatalogSchemaOwner] at h
            subst h; simp at hok
        | ok u =>
            rw [hrr] at h; simp only [updateDataCatalogSchemaOwner] at h
            exact updateReadBack_ok_read d env _ o h hok
  · rw [if_neg hc] at h
    exact updateReadBack_ok_read d env log o h hok

/-- When the plain-connection read fails, the Update tail rolls the
transaction back and returns the doubly wrapped error with the local
data untouched. -/
theorem updateReadBack_read_error (d : ResourceData) (env : UpdateEnv)
    (log : List String) (e : GoError) (hr : env.readRes = .error e) :
    updateReadBack d env log =
      { result := .err (.wrapped "Error performing rollback: "
          (.wrapped ("Error reading external schema information for oid "
            ++ d.id) e))
        d := d, stmts := log, tx := .rolledBack } := by
  unfold updateReadBack readDataCatalogSchema
  rw [hr]

/-- On every path of `createAfterOwner`, the identifier is either left
alone or set to exactly the oid the resolver returned. -/
theorem createAfterOwner_id (d : ResourceData) (env : CreateEnv)
    (log : List String) (o : CreateOutcome)
    (h : createAfterOwner d env log = o) :
    o.d.id = d.id ∨ env.oidRes = .ok o.d.id := by
  unfold createAfterOwner at h
  cases ho : env.oidRes with
  | error e => rw [ho] at h; subst h; left; rfl
  | ok oid =>
    rw [ho] at h
    cases hr : env.readRes with
    | error e =>
        rw [hr] at h; simp only [readDataCatalogSchema] at h
        subst h; right; rfl
    | ok row =>
        rw [hr] at h; simp only [readDataCatalogSchema] at h
        subst h; right; rfl

/-- On every path of Create, the identifier is either left alone or set
to exactly the oid the resolver returned. -/
theorem create_id (d : ResourceData) (env : CreateEnv) (o : CreateOutcome)
    (h : resourceDataCatalogSchemaCreate d env = o) :
    o.d.id = d.id ∨ env.oidRes = .ok o.d.id := by
  unfold resourceDataCatalogSchemaCreate at h
  cases hc : env.createRes with
  | error e => rw [hc] at h; subst h; left; rfl
  | ok u =>
    rw [hc] at h
    cases hown : d.ownerOk with
    | false =>
        simp only [hown, Bool.false_eq_true, if_false] at h
        exact createAfterOwner_id d env _ o h
    | true =>
      simp only [hown, if_true] at h
      cases hn : env.names with
      | nil =>
          rw [hn] at h; simp only [updateDataCatalogSchemaOwner] at h
          subst h; left; rfl
      | cons name rest =>
        rw [hn] at h
        cases ha : env.alterOwnerRes with
        | error e =>
            rw [ha] at h; simp only [updateDataCatalogSchemaOwner] at h
            subst h; left; rfl
        | ok u2 =>
            rw [ha] at h; simp only [updateDataCatalogSchemaOwner] at h
            exact createAfterOwner_id d env _ o h

/-- When the creation DDL succeeded but the owner application fails,
Create returns an error with the identifier untouched. -/
theorem create_owner_fail (d : ResourceData) (env : CreateEnv)
    (e : GoError) (name : String) (rest : List String) (o : CreateOutcome)
    (h : resourceDataCatalogSchemaCreate d env = o)
    (hc : env.createRes = .ok ()) (hown : d.ownerOk = true)
    (hnm : env.names = name :: rest)
    (ha : env.alterOwnerRes = .error e) :
    o.d.id = d.id ∧ ∃ e2, o.result = .err e2 := by
  unfold resourceDataCatalogSchemaCreate at h
  rw [hc, hnm, ha] at h
  simp only [hown, if_true, updateDataCatalogSchemaOwner] at h
  subst h
  exact ⟨rfl, _, rfl⟩

/-- When the creation DDL and owner step succeeded but the oid lookup
fails, Create returns an error with the identifier untouched. -/
theorem create_oid_fail (d : ResourceData) (env : CreateEnv)
    (e : GoError) (o : CreateOutcome)
    (h : resourceDataCatalogSchemaCreate d env = o)
    (hc : env.createRes = .ok ())
    (hstep : d.ownerOk = true →
      (∃ name rest, env.names = name :: rest)
      ∧ env.alterOwnerRes = .ok ())
    (ho : env.oidRes = .error e) :
    o.d.id = d.id ∧ ∃ e2, o.result = .err e2 := by
  unfold resourceDataCatalogSchemaCreate at h
  rw [hc] at h
  cases hown : d.ownerOk with
  | false =>
      simp only [hown, Bool.false_eq_true, if_false] at h
      unfold createAfterOwner at h
      rw [ho] at h; subst h
      exact ⟨rfl, _, rfl⟩
  | true =>
      obtain ⟨⟨name, rest, hnm⟩, ha⟩ := hstep hown
      rw [hnm, ha] at h
      simp only [hown, if_true, updateDataCatalogSchemaOwner] at h
      unfold createAfterOwner at h
      rw [ho] at h; subst h
      exact ⟨rfl, _, rfl⟩

/-! Claims. -/

/-- C1: after a successful Create or Update, the locally held attribute
set (schemaName, owner, databaseName, iamRole) equals exactly what the
final explicit re-read of the assigned identifier returned: the
read-derived row unconditionally overwrites the caller-supplied values
for every field. -/
theorem create_update_server_wins (d : ResourceData)
    (cenv : CreateEnv) (uenv : UpdateEnv)
    (oc : CreateOutcome) (ou : UpdateOutcome) :
    (resourceDataCatalogSchemaCreate d cenv = oc → oc.result = .ok →
      cenv.readRes = .ok ⟨oc.d.new.schemaName, oc.d.new.owner,
        oc.d.new.databaseName, oc.d.new.iamRole⟩)
    ∧ (resourceDataCatalogSchemaUpdate d uenv = ou → ou.result = .ok →
      uenv.readRes = .ok ⟨ou.d.new.schemaName, ou.d.new.owner,
        ou.d.new.databaseName, ou.d.new.iamRole⟩) := by
  constructor
  · intro h hok
    unfold resourceDataCatalogSchemaCreate at h
    cases hc : cenv.createRes with
    | error e => rw [hc] at h; subst h; simp at hok
    | ok u =>
      rw [hc] at h
      cases hown : d.ownerOk with
      | false => simp only [hown, Bool.false_eq_true, if_false] at h
                 exact createAfterOwner_ok_read d cenv _ oc h hok
      | true =>
        simp only [hown, if_true] at h
        cases hn : cenv.names with
        | nil =>
            rw [hn] at h; simp only [updateDataCatalogSchemaOwner] at h
            subst h; simp at hok
        | cons name rest =>
            rw [hn] at h
            cases ha : cenv.alterOwnerRes with
            | error e =>
                rw [ha] at h; simp only [updateDataCatalogSchemaOwner] at h
                subst h; simp at hok
            | ok u2 =>
                rw [ha] at h; simp only [updateDataCatalogSchemaOwner] at h
                exact createAfterOwner_ok_read d cenv _ oc h hok
  · intro h hok
    unfold resourceDataCatalogSchemaUpdate at h
    cases hb : uenv.beginFails with
    | true => simp only [hb, if_true] at h; subst h; simp at hok
    | false =>
      simp only [hb, Bool.false_eq_true, if_false] at h
      by_cases hn : d.old.schemaName ≠ d.new.schemaName
      · rw [if_pos hn] at h
        cases hr : uenv.renameRes with
        | error e => rw [hr] at h; subst h; simp at hok
        | ok u => rw [hr] at h
                  exact updateOwnerStep_ok_read d uenv _ ou h hok
      · rw [if_neg hn] at h
        exact updateOwnerStep_ok_read d uenv [] ou h hok

/-- Witness for `create_update_server_wins` at concrete environments. -/
theorem create_update_server_wins_witness :
    cenvOK.readRes =
      .ok ⟨(resourceDataCatalogSchemaCreate d0 cenvOK).d.new.schemaName,
        (resourceDataCatalogSchemaCreate d0 cenvOK).d.new.owner,
        (resourceDataCatalogSchemaCreate d0 cenvOK).d.new.databaseName,
        (resourceDataCatalogSchemaCreate d0 cenvOK).d.new.iamRole⟩
    ∧ uenvOK.readRes =
      .ok ⟨(resourceDataCatalogSchemaUpdate dCh uenvOK).d.new.schemaName,
        (resourceDataCatalogSchemaUpdate dCh uenvOK).d.new.owner,
        (resourceDataCatalogSchemaUpdate dCh uenvOK).d.new.databaseName,
        (resourceDataCatalogSchemaUpdate dCh uenvOK).d.new.iamRole⟩ :=
  ⟨(create_update_server_wins d0 cenvOK uenvOK
      (resourceDataCatalogSchemaCreate d0 cenvOK)
      (resourceDataCatalogSchemaUpdate d0 uenvOK)).1 rfl (by decide),
   (create_update_server_wins dCh cenvOK uenvOK
      (resourceDataCatalogSchemaCreate dCh cenvOK)
      (resourceDataCatalogSchemaUpdate dCh uenvOK)).2 rfl (by decide)⟩

/-- C6: `Exists` returns `false` with no error when the existence query
matches zero rows, `true` when a row matches, and a fatal (wrapped)
error exactly for query failures other than the zero-rows case. -/
theorem exists_semantics (d : ResourceData) :
    resourceDataCatalogSchemaExists d (.error .sqlNoRows) = .ok false
    ∧ (∀ name : String,
        resourceDataCatalogSchemaExists d (.ok name) = .ok true)
    ∧ (∀ e : GoError, e ≠ .sqlNoRows →
        resourceDataCatalogSchemaExists d (.error e) =
          .error (.wrapped
            ("Error reading external schema with oid " ++ d.id) e)) := by
  refine ⟨rfl, fun name => rfl, fun e he => ?_⟩
  cases e with
  | sqlNoRows => exact absurd rfl he
  | sqlOther m => rfl
  | wrapped m c => rfl

/-- Witness for `exists_semantics` at concrete inputs. -/
theorem exists_semantics_witness :
    resourceDataCatalogSchemaExists d0 (.error .sqlNoRows) = .ok false
    ∧ resourceDataCatalogSchemaExists d0 (.ok "ext1") = .ok true
    ∧ resourceDataCatalogSchemaExists d0 (.error (.sqlOther "conn reset")) =
        .error (.wrapped "Error reading external schema with oid 42"
          (.sqlOther "conn reset")) := by
  obtain ⟨h1, h2, h3⟩ := exists_semantics d0
  exact ⟨h1, h2 "ext1", h3 (.sqlOther "conn reset") (by decide)⟩

/-- C7 counterexample: with `cascade_on_delete` set, the statement the
source builds is `"DROP SCHEMA ext1 CASCADE "` — trailing blank
included — which is not the claimed exact string
`"DROP SCHEMA ext1 CASCADE"`. -/
theorem delete_cascade_trailing_blank :
    (resourceDataCatalogSchemaDelete
        { d0 with cascadeOnDelete := true } (.ok ())).2 =
      ["DROP SCHEMA ext1 CASCADE "]
    ∧ "DROP SCHEMA ext1 CASCADE " ≠ "DROP SCHEMA ext1 CASCADE" :=
  ⟨rfl, by decide⟩

/-- C7 amended: Delete issues exactly `DROP SCHEMA x` when
`cascade_on_delete` is false, and exactly `DROP SCHEMA x CASCADE `
(trailing blank included) when it is true. -/
theorem delete_statement_shape (d : ResourceData) (r : QueryRes Unit) :
    (resourceDataCatalogSchemaDelete { d with cascadeOnDelete := false } r).2 =
      ["DROP SCHEMA " ++ d.new.schemaName]
    ∧ (resourceDataCatalogSchemaDelete { d with cascadeOnDelete := true } r).2 =
      ["DROP SCHEMA " ++ d.new.schemaName ++ " CASCADE "] := by
  cases r <;> exact ⟨rfl, rfl⟩

/-- C4 counterexample: with an empty lookup result the owner update does
not return an error — it crashes on the unchecked `username[0]` index,
issuing no statement. -/
theorem owner_update_empty_lookup_crash :
    updateDataCatalogSchemaOwner d0 [] (.ok ()) =
      (.crashed "runtime error: index out of range", []) := rfl

/-- C4 amended: whenever the batch owner-name lookup yields no name, the
owner update panics with an index-out-of-range runtime error before
issuing any statement, instead of returning a resolution error to the
caller. -/
theorem owner_update_empty_lookup (d : ResourceData) (r : QueryRes Unit) :
    updateDataCatalogSchemaOwner d [] r =
      (.crashed "runtime error: index out of range", []) := rfl

/-- C5 counterexample: the zero-row case and a generic query failure are
wrapped by `readDataCatalogSchema` into errors of the same shape with
the same message — there is no distinct not-found error, and the
no-rows cause is not propagated unwrapped. -/
theorem read_no_rows_not_distinguished :
    readDataCatalogSchema d0 (.error .sqlNoRows) =
      .error (.wrapped
        "Error reading external schema information for oid 42" .sqlNoRows)
    ∧ readDataCatalogSchema d0 (.error (.sqlOther "connection reset")) =
      .error (.wrapped
        "Error reading external schema information for oid 42"
        (.sqlOther "connection reset"))
    ∧ (GoError.wrapped
        "Error reading external schema information for oid 42"
        .sqlNoRows).topMsg =
      (GoError.wrapped
        "Error reading external schema information for oid 42"
        (.sqlOther "connection reset")).topMsg :=
  ⟨rfl, rfl, rfl⟩

/-- C5 amended: `readState` wraps every scan failure — the zero-row case
included — into one wrapped error with one message, so a vanished
object is distinguishable from other failures only by unwrapping the
cause; `Read` returns `readState`'s result unchanged. -/
theorem readState_uniform_wrap (d : ResourceData) (e : GoError)
    (r : QueryRes ReadRow) :
    readDataCatalogSchema d (.error e) =
      .error (.wrapped
        ("Error reading external schema information for oid " ++ d.id) e)
    ∧ resourceDataCatalogSchemaRead d r = readDataCatalogSchema d r :=
  ⟨rfl, rfl⟩

/-- C2: whenever Update's post-mutation read-back fails, the transaction
holding the rename and reown statements is rolled back before the
wrapped error is returned: no statement of the call is durably applied,
so a fresh Read observes the pre-Update name and owner. -/
theorem update_readback_failure_rolls_back (d : ResourceData)
    (env : UpdateEnv) (e : GoError)
    (hb : env.beginFails = false)
    (hrn : d.old.schemaName ≠ d.new.schemaName → env.renameRes = .ok ())
    (how : d.old.owner ≠ d.new.owner →
      (∃ name rest, env.names = name :: rest) ∧ env.reownRes = .ok ())
    (hr : env.readRes = .error e) :
    (resourceDataCatalogSchemaUpdate d env).tx = .rolledBack
    ∧ durableStmts (resourceDataCatalogSchemaUpdate d env) = []
    ∧ (resourceDataCatalogSchemaUpdate d env).result =
        .err (.wrapped "Error performing rollback: "
          (.wrapped ("Error reading external schema information for oid "
            ++ d.id) e))
    ∧ (resourceDataCatalogSchemaUpdate d env).d = d := by
  have hstep : ∀ log : List String, ∃ l : List String,
      updateOwnerStep d env log =
        { result := .err (.wrapped "Error performing rollback: "
            (.wrapped ("Error reading external schema information for oid "
              ++ d.id) e))
          d := d, stmts := l, tx := .rolledBack } := by
    intro log
    unfold updateOwnerStep
    by_cases hc : d.old.owner ≠ d.new.owner
    · obtain ⟨⟨name, rest, hnm⟩, hro⟩ := how hc
      rw [if_pos hc, hnm, hro]
      simp only [updateDataCatalogSchemaOwner]
      exact ⟨_, updateReadBack_read_error d env _ e hr⟩
    · rw [if_neg hc]
      exact ⟨log, updateReadBack_read_error d env log e hr⟩
  have hmain : ∃ l : List String,
      resourceDataCatalogSchemaUpdate d env =
        { result := .err (.wrapped "Error performing rollback: "
            (.wrapped ("Error reading external schema information for oid "
              ++ d.id) e))
          d := d, stmts := l, tx := .rolledBack } := by
    unfold resourceDataCatalogSchemaUpdate
    simp only [hb, Bool.false_eq_true, if_false]
    by_cases hn : d.old.schemaName ≠ d.new.schemaName
    · rw [if_pos hn, hrn hn]
      exact hstep [renameStatement d]
    · rw [if_neg hn]
      exact hstep []
  obtain ⟨l, hl⟩ := hmain
  rw [hl]
  exact ⟨rfl, rfl, rfl, rfl⟩

/-- Witness for `update_readback_failure_rolls_back` on the concrete
rename-and-reown scenario with a failing read-back. -/
theorem update_readback_failure_rolls_back_witness :
    (resourceDataCatalogSchemaUpdate dCh uenvReadFail).tx = .rolledBack
    ∧ durableStmts (resourceDataCatalogSchemaUpdate dCh uenvReadFail) = []
    ∧ (resourceDataCatalogSchemaUpdate dCh uenvReadFail).result =
        .err (.wrapped "Error performing rollback: "
          (.wrapped "Error reading external schema information for oid 42"
            (.sqlOther "read-back failed")))
    ∧ (resourceDataCatalogSchemaUpdate dCh uenvReadFail).d = dCh :=
  update_readback_failure_rolls_back dCh uenvReadFail
    (.sqlOther "read-back failed") rfl (fun _ => rfl)
    (fun _ => ⟨⟨"alice", [], rfl⟩, rfl⟩) rfl

/-- C3: an Update that changes both schemaName and owner issues exactly
the rename statement followed by the reown statement, and the reown
statement names the new schema name. -/
theorem update_rename_precedes_reown (d : ResourceData) (env : UpdateEnv)
    (name : String) (rest : List String)
    (hb : env.beginFails = false)
    (hn : d.old.schemaName ≠ d.new.schemaName)
    (ho : d.old.owner ≠ d.new.owner)
    (hrn : env.renameRes = .ok ())
    (hnm : env.names = name :: rest) :
    (resourceDataCatalogSchemaUpdate d env).stmts =
      ["ALTER SCHEMA " ++ d.old.schemaName ++ " RENAME TO "
          ++ d.new.schemaName,
       "ALTER SCHEMA " ++ d.new.schemaName ++ " OWNER TO " ++ name] := by
  unfold resourceDataCatalogSchemaUpdate
  simp only [hb, Bool.false_eq_true, if_false]
  rw [if_pos hn, hrn]
  unfold updateOwnerStep
  rw [if_pos ho, hnm]
  simp only [updateDataCatalogSchemaOwner]
  cases hrr : env.reownRes with
  | error e => simp [renameStatement]
  | ok u =>
      unfold updateReadBack
      cases hread : env.readRes with
      | error e2 => simp [readDataCatalogSchema, renameStatement]
      | ok row => simp [readDataCatalogSchema, renameStatement]

/-- Witness for `update_rename_precedes_reown` on the spec's concrete
rename-and-reown scenario. -/
theorem update_rename_precedes_reown_witness :
    (resourceDataCatalogSchemaUpdate dCh uenvOK).stmts =
      ["ALTER SCHEMA ext1 RENAME TO ext2",
       "ALTER SCHEMA ext2 OWNER TO alice"] :=
  update_rename_precedes_reown dCh uenvOK "alice" []
    rfl (by decide) (by decide) rfl rfl

/-- C8: the identifier is assigned only during Create — and then to
exactly the oid the resolver returned — while Update (renames included),
Read, and Import never mutate it.  `Exists` and `Delete` never write
through the resource data in the source, which the embedding mirrors by
not returning a resource data from them. -/
theorem identifier_immutable (d : ResourceData) (uenv : UpdateEnv)
    (cenv : CreateEnv) (r : QueryRes ReadRow) :
    (resourceDataCatalogSchemaUpdate d uenv).d.id = d.id
    ∧ (match readDataCatalogSchema d r with
        | .ok d1 => d1.id = d.id
        | .error _ => True)
    ∧ (match resourceDataCatalogSchemaImport d r with
        | .ok ds => ∀ d1 ∈ ds, d1.id = d.id
        | .error _ => True)
    ∧ ((resourceDataCatalogSchemaCreate d cenv).d.id = d.id
        ∨ cenv.oidRes = .ok (resourceDataCatalogSchemaCreate d cenv).d.id)
    := by
  refine ⟨update_id d uenv, ?_, ?_, create_id d cenv _ rfl⟩
  · cases r with
    | error e => simp [readDataCatalogSchema]
    | ok row => simp [readDataCatalogSchema]
  · cases r with
    | error e =>
        simp [resourceDataCatalogSchemaImport, resourceDataCatalogSchemaRead,
          readDataCatalogSchema]
    | ok row =>
        simp [resourceDataCatalogSchemaImport, resourceDataCatalogSchemaRead,
          readDataCatalogSchema]

/-- Witness for `identifier_immutable` at the concrete scenario
fixtures. -/
theorem identifier_immutable_witness :
    (resourceDataCatalogSchemaUpdate dCh uenvOK).d.id = "42"
    ∧ ((resourceDataCatalogSchemaCreate dCh cenvOK).d.id = "42"
        ∨ cenvOK.oidRes =
            .ok (resourceDataCatalogSchemaCreate dCh cenvOK).d.id) :=
  ⟨(identifier_immutable dCh uenvOK cenvOK
      (.ok ⟨"ext2", 200, "gluedb", "arn:aws:iam::123:role/r"⟩)).1,
   (identifier_immutable dCh uenvOK cenvOK
      (.ok ⟨"ext2", 200, "gluedb", "arn:aws:iam::123:role/r"⟩)).2.2.2⟩

/-- C9 (code bug in the source): when the rename statement fails, Update
returns the wrapped error with the transaction still open — neither
`Commit` nor `Rollback` runs on that early-return exit path, so the
call does not release the transaction it opened. -/
theorem update_rename_failure_leaves_tx_open :
    resourceDataCatalogSchemaUpdate dCh uenvRenameFail =
      { result := .err (.wrapped
          "Error renaming external schema ext1 to ext2"
          (.sqlOther "syntax error"))
        d := dCh, stmts := ["ALTER SCHEMA ext1 RENAME TO ext2"],
        tx := .stillOpen } := by decide

/-- C10: if, after the creation DDL succeeds, the owner-application step
or the oid-resolution lookup fails, Create returns an error with the
identifier still unassigned — `SetId` is reached only after both
succeed. -/
theorem create_error_before_set_id (d : ResourceData) (env : CreateEnv)
    (e : GoError) :
    (env.createRes = .ok () → d.ownerOk = true →
      (∃ name rest, env.names = name :: rest) →
      env.alterOwnerRes = .error e →
      (resourceDataCatalogSchemaCreate d env).d.id = d.id
      ∧ ∃ e2, (resourceDataCatalogSchemaCreate d env).result = .err e2)
    ∧ (env.createRes = .ok () →
      (d.ownerOk = true →
        (∃ name rest, env.names = name :: rest)
        ∧ env.alterOwnerRes = .ok ()) →
      env.oidRes = .error e →
      (resourceDataCatalogSchemaCreate d env).d.id = d.id
      ∧ ∃ e2, (resourceDataCatalogSchemaCreate d env).result = .err e2)
    := by
  constructor
  · rintro hc hown ⟨name, rest, hnm⟩ ha
    exact create_owner_fail d env e name rest _ rfl hc hown hnm ha
  · rintro hc hstep hoid
    exact create_oid_fail d env e _ rfl hc hstep hoid

/-- Witness for `create_error_before_set_id`: the owner statement fails
in one environment, the oid lookup in the other; in both the identifier
stays `"42"` and an error is returned. -/
theorem create_error_before_set_id_witness :
    ((resourceDataCatalogSchemaCreate d0 cenvOwnerFail).d.id = d0.id
      ∧ ∃ e2, (resourceDataCatalogSchemaCreate d0 cenvOwnerFail).result =
          .err e2)
    ∧ ((resourceDataCatalogSchemaCreate d0 cenvOidFail).d.id = d0.id
      ∧ ∃ e2, (resourceDataCatalogSchemaCreate d0 cenvOidFail).result =
          .err e2) :=
  ⟨(create_error_before_set_id d0 cenvOwnerFail
      (.sqlOther "permission denied")).1 rfl (by decide)
      ⟨"alice", [], rfl⟩ rfl,
   (create_error_before_set_id d0 cenvOidFail .sqlNoRows).2 rfl
      (fun _ => ⟨⟨"alice", [], rfl⟩, rfl⟩) rfl⟩

end Redshift
